import Mathlib

/-!
Shallow embedding of the `MariaDB` session / pooling / transaction layer of
`ares-datasource-mysql` (source files `src/index.js` and `src/unnamed/part_000`,
two variants of the same class `MariaDB extends SQLDBConnection`).

Driver callbacks (`pool.getConnection`, `connection.beginTransaction`,
`connection.commit`, `connection.release`, `connection.query`) are modelled by
passing the driver's reported outcome as an explicit argument; each embedded
method returns a record carrying the resulting state together with the
observable effects (which driver calls were issued, what was logged or thrown,
how often the caller-supplied callback ran).
-/

namespace AresMysql

/-! ## Transaction state machine (`startTransaction` / `commit` / `rollback`)

`this.transaction` in the JavaScript is `undefined` initially, a string while a
transaction is recorded, and `null` after commit/rollback.  We model it as
`Option String`; `none` stands for `undefined`/`null`.  The guard in
`startTransaction` is JavaScript truthiness `!this.transaction`, which is also
true for the empty string, so truthiness is modelled separately from equality.
The guards in `commit`/`rollback` are strict equality `this.transaction === name`.
-/

/-- JavaScript truthiness of `this.transaction`: `undefined`, `null` and the
empty string are falsy; every nonempty string is truthy. -/
def jsTruthy : Option String → Bool
  | none => false
  | some s => !(s == "")

/-- Result of one transaction-control call: the new `this.transaction`, which
driver-level operations were issued, and the message of a thrown error, if any. -/
structure TxOutcome where
  transaction : Option String
  driverBegin : Bool
  driverCommit : Bool
  driverRollback : Bool
  thrown : Option String
deriving DecidableEq, Repr

/-- `MariaDB.startTransaction(name)` (src/index.js lines 59-70, identical in
part_000): if `!this.transaction` it issues `connection.beginTransaction`; the
driver callback either throws on `transactionError` or records the name.
`beginError` is the error the driver reports to that callback (`none` = success). -/
def startTransaction (transaction : Option String) (name : String)
    (beginError : Option String) : TxOutcome :=
  if jsTruthy transaction then
    ⟨transaction, false, false, false, none⟩
  else
    match beginError with
    | some e => ⟨transaction, true, false, false,
        some ("Error on starting transaction: " ++ e)⟩
    | none => ⟨some name, true, false, false, none⟩

/-- `MariaDB.rollback(name)` (src/index.js lines 72-77): if
`this.transaction === name` it issues `connection.rollback()` (no callback,
treated as always succeeding) and sets `this.transaction = null`. -/
def rollback (transaction : Option String) (name : String) : TxOutcome :=
  if transaction = some name then
    ⟨none, false, false, true, none⟩
  else
    ⟨transaction, false, false, false, none⟩

/-- `MariaDB.commit(name)` (src/index.js lines 79-89): if
`this.transaction === name` it issues `connection.commit`; the driver callback
throws on `commitError` (leaving `this.transaction` untouched) and otherwise
sets `this.transaction = null`.  `commitError` is the error the driver reports
(`none` = success). -/
def commit (transaction : Option String) (name : String)
    (commitError : Option String) : TxOutcome :=
  if transaction = some name then
    match commitError with
    | some e => ⟨transaction, false, true, false,
        some ("Error on committing transaction \"" ++ name ++ "\": " ++ e)⟩
    | none => ⟨none, false, true, false, none⟩
  else
    ⟨transaction, false, false, false, none⟩

/-! ## Session connect / disconnect (`nativeConnect` / `nativeDisconnect`) -/

/-- A borrowed physical connection handle, identified by which pool slot it is. -/
structure Conn where
  id : Nat
deriving DecidableEq, Repr

/-- The per-session state `nativeConnect` / `nativeDisconnect` act on:
`this.connection` is `undefined`/`null` (`none`) or a truthy connection object. -/
structure NCSession where
  sessionId : String
  connection : Option Conn
deriving DecidableEq, Repr

/-- How the promise built inside `nativeConnect` ends: resolved (with the
session state afterwards) or rejected with the pool error. -/
inductive ConnectResult where
  | resolved (s : NCSession)
  | rejected (s : NCSession) (err : String)
deriving DecidableEq, Repr

/-- Observable outcome of one `nativeConnect` call: its result, how many times
`pool.getConnection` was invoked, and how many times the caller-supplied
`callback` was invoked. -/
structure ConnectOutcome where
  result : ConnectResult
  poolBorrows : Nat
  callbackCalls : Nat
deriving DecidableEq, Repr

/-- `MariaDB.nativeConnect(callback)` (src/index.js lines 25-47, part_000 lines
22-44): after `this.connection = this.connection ?? null`, if `!this.connection`
it calls `pool.getConnection` once; the driver callback rejects on `err`
without touching `callback`, and on success registers the end observer, invokes
`callback(err)` (with `err` null) once, and resolves with the connection.
If already connected the whole block is skipped.  `poolReply` is what the pool
reports to the `getConnection` callback. -/
def nativeConnect (s : NCSession) (poolReply : Except String Conn) :
    ConnectOutcome :=
  match s.connection with
  | some _ => ⟨.resolved s, 0, 0⟩
  | none =>
    match poolReply with
    | .error e => ⟨.rejected s e, 1, 0⟩
    | .ok conn => ⟨.resolved { s with connection := some conn }, 1, 1⟩

/-- Observable outcome of one `nativeDisconnect` call: the Session Registry
(`datasource.sessions`, modelled as the list of registered session ids)
afterwards, whether a release error was logged, and whether anything was thrown. -/
structure DisconnectOutcome where
  sessions : List String
  loggedReleaseError : Bool
  raised : Bool
deriving DecidableEq, Repr

/-- `MariaDB.nativeDisconnect()` (src/index.js lines 49-57, identical in
part_000): calls `connection.release`; its callback logs and returns early on
`releaseError`, and only on success executes
`delete this.datasource.sessions[this.sessionId]`.  `releaseError` is the error
the driver reports to the release callback (`none` = success). -/
def nativeDisconnect (sessions : List String) (sessionId : String)
    (releaseError : Option String) : DisconnectOutcome :=
  match releaseError with
  | some _ => ⟨sessions, true, false⟩
  | none => ⟨sessions.filter (fun s => !(s == sessionId)), false, false⟩

/-! ## Query execution facade (`executeNativeQueryAsync` / `executeQuerySync`)

Timestamps (`new Date().getTime()`) are modelled as explicit `Int` arguments:
`issueTime` is the clock reading when the method starts, `doneTime` the reading
inside the driver's completion callback, both on the same clock.  The `mysql`
driver invokes the completion callback with `(error, results, fields)`, where
`results` and `fields` are `undefined` exactly when `error` is set; this driver
contract is encoded structurally by `DriverReply`. -/

/-- A JavaScript value passed as the `params` argument: either a plain array of
bound values or an object whose `parameters` property holds such an array
(`undef` stands for `undefined`). -/
inductive JSVal where
  | undefined
  | intList (xs : List Int)
  | objWithParameters (xs : List Int)
deriving DecidableEq, Repr

/-- Property access `params.parameters`: `undefined` unless the value is an
object carrying that property (arrays have no `parameters` property). -/
def JSVal.parametersField : JSVal → JSVal
  | .objWithParameters xs => .intList xs
  | _ => .undefined

/-- What the native driver reports to the query completion callback. -/
inductive DriverReply where
  | ok (results : List (List Int)) (fields : List String)
  | err (e : String)
deriving DecidableEq, Repr

/-- The response object both facade methods build.  `none` in an `Option` field
means the property was never assigned (absent); `some .undefined` in `params` means
the property was assigned the value `undefined`. -/
structure QueryResponse where
  executionTime : Int
  executionDateTime : Int
  query : Option String := none
  params : Option JSVal := none
  fields : Option (List String) := none
  results : Option (List (List Int)) := none
  error : Option String := none
deriving DecidableEq, Repr

/-- Outcome of one `executeNativeQueryAsync` call: whether the promise resolved
(`true`) or rejected (`false`), the response it carried either way, and
`this.transaction` afterwards. -/
structure QueryExecResult where
  resolved : Bool
  response : QueryResponse
  transactionAfter : Option String
deriving DecidableEq, Repr

/-- The driver fields the query callback copies into the response, shared by
all four facade variants: `fields`, `results` and `error` are set from the
callback arguments (`undefined` ones included). -/
def applyReply (r : QueryResponse) (reply : DriverReply) : QueryResponse :=
  match reply with
  | .ok results fields =>
      { r with fields := some fields, results := some results, error := none }
  | .err e =>
      { r with fields := none, results := none, error := some e }

/-- `MariaDB.executeNativeQueryAsync(command, params)` of src/index.js lines
91-118: `response.executionTime` starts as the issue timestamp; outside
production mode `response.query = command` and
`response.params = params.parameters`; the completion callback overwrites
`executionTime` with `doneTime - executionTime`, copies the driver fields, and
rejects the promise with the response when `error` is set, resolving with it
otherwise. `this.transaction` is never touched. -/
def executeNativeQueryAsync (isProduction : Bool) (transaction : Option String)
    (command : String) (params : JSVal) (issueTime doneTime : Int)
    (reply : DriverReply) : QueryExecResult :=
  let response : QueryResponse :=
    { executionTime := issueTime, executionDateTime := issueTime }
  let response :=
    if isProduction then response
    else { response with query := some command,
                         params := some params.parametersField }
  let response :=
    applyReply { response with executionTime := doneTime - response.executionTime }
      reply
  { resolved := match reply with | .ok _ _ => true | .err _ => false,
    response := response,
    transactionAfter := transaction }

/-- `MariaDB.executeNativeQueryAsync(command, params)` of src/unnamed/part_000
lines 88-115: identical to the src/index.js variant except that outside
production mode it sets `response.params = params` (the whole value, not its
`parameters` property). -/
def executeNativeQueryAsyncP0 (isProduction : Bool) (transaction : Option String)
    (command : String) (params : JSVal) (issueTime doneTime : Int)
    (reply : DriverReply) : QueryExecResult :=
  let response : QueryResponse :=
    { executionTime := issueTime, executionDateTime := issueTime }
  let response :=
    if isProduction then response
    else { response with query := some command, params := some params }
  let response :=
    applyReply { response with executionTime := doneTime - response.executionTime }
      reply
  { resolved := match reply with | .ok _ _ => true | .err _ => false,
    response := response,
    transactionAfter := transaction }

/-- `MariaDB.executeQuerySync(command, params, callback)` of src/index.js lines
119-137: `response.executionTime` is set to the issue timestamp; the completion
callback copies `fields`, `results` and `error` into the response but never
recomputes `executionTime`, and the spin loop then returns the response. -/
def executeQuerySync (command : String) (params : JSVal)
    (issueTime doneTime : Int) (reply : DriverReply) : QueryResponse :=
  let response : QueryResponse :=
    { executionTime := issueTime, executionDateTime := issueTime }
  applyReply response reply

/-- `MariaDB.executeQuerySync(command, params, callback)` of
src/unnamed/part_000 lines 116-135: as the src/index.js variant, but its
completion callback additionally sets
`response.executionTime = new Date().getTime() - response.executionTime`. -/
def executeQuerySyncP0 (command : String) (params : JSVal)
    (issueTime doneTime : Int) (reply : DriverReply) : QueryResponse :=
  let response : QueryResponse :=
    { executionTime := issueTime, executionDateTime := issueTime }
  applyReply { response with executionTime := doneTime - response.executionTime }
    reply

/-! ## Connection pool acquisition

The src/index.js constructor (lines 20-22) fetches the pool through
`this.datasource.getPool(this.connectionSettingName, factory)`, a
Connection Pool Registry living in `@ares/core/datasources.js`, outside this
repository's sources.  The src/unnamed/part_000 variant instead keeps a single
class-level pool: `MariaDB.pool = MariaDB.pool ?? mysql.createPool(...)`
(line 25 of part_000), with no keying by settings name. -/

/-- A pool, tagged by the settings name whose factory built it and a creation
serial number so that distinct factory invocations are distinguishable. -/
structure Pool where
  settingsName : String
  serial : Nat
deriving DecidableEq, Repr

/-- Modelled from the spec: `datasource.getPool(settingsName, factory)`, the
Connection Pool Registry of `@ares/core/datasources.js`, which is not among
this repository's source files.  Spec section 4.1: the first call for a given
`settingsName` invokes `factory()` to build the pool and caches the result; all
subsequent calls for the same name return the cached pool without re-invoking
`factory`.  Returns the updated registry, the pool handed back, and whether the
factory was invoked. -/
def getPool (registry : List (String × Pool)) (settingsName : String)
    (factory : Unit → Pool) : List (String × Pool) × Pool × Bool :=
  match registry.find? (fun kv => kv.1 == settingsName) with
  | some kv => (registry, kv.2, false)
  | none =>
      let p := factory ()
      ((settingsName, p) :: registry, p, true)

/-- `MariaDB.pool = MariaDB.pool ?? mysql.createPool({ ...this, multipleStatements: true })`
(src/unnamed/part_000 line 25): the class-level static slot is filled from the
current instance's settings on first use and reused as-is — whatever the
settings name — afterwards.  Returns the slot afterwards, the pool used, and
whether `mysql.createPool` ran. -/
def staticPoolAcquire (slot : Option Pool) (settingsName : String)
    (serial : Nat) : Option Pool × Pool × Bool :=
  match slot with
  | some p => (some p, p, false)
  | none =>
      let p : Pool := ⟨settingsName, serial⟩
      (some p, p, true)

/-! ## Theorems settling the claims -/

/-- Claim C1, counterexample: with session "s1" registered, `nativeDisconnect`
under a failing release logs the error and returns early, leaving "s1" in the
Session Registry — the claim that the entry is removed regardless of the
release outcome is false. -/
theorem C1_counterexample :
    (nativeDisconnect ["s1"] "s1" (some "release failed")).sessions = ["s1"] ∧
    "s1" ∈ (nativeDisconnect ["s1"] "s1" (some "release failed")).sessions ∧
    (nativeDisconnect ["s1"] "s1" (some "release failed")).loggedReleaseError = true ∧
    (nativeDisconnect ["s1"] "s1" (some "release failed")).raised = false := by
  refine ⟨rfl, ?_, rfl, rfl⟩
  simp [nativeDisconnect]

/-- Claim C1 as amended: `nativeDisconnect` removes the session id from the
Session Registry exactly when the release succeeds; a release failure is
logged, not raised, and leaves the registry — session id included — unchanged. -/
theorem C1_disconnect_registry (sessions : List String) (sessionId e : String) :
    (nativeDisconnect sessions sessionId none).sessions
        = sessions.filter (fun s => !(s == sessionId)) ∧
    sessionId ∉ (nativeDisconnect sessions sessionId none).sessions ∧
    (nativeDisconnect sessions sessionId none).raised = false ∧
    nativeDisconnect sessions sessionId (some e) = ⟨sessions, true, false⟩ := by
  refine ⟨rfl, ?_, rfl, rfl⟩
  simp [nativeDisconnect, List.mem_filter]

/-- Claim C2: in the src/index.js variant, `executeQuerySync` leaves
`executionTime` equal to the issue timestamp (here 1000) instead of the
completion-minus-issue duration (here 500), while the async form and the
part_000 sync variant do compute the difference — exhibiting the divergence at
issue time 1000 and completion time 1500. -/
theorem C2_sync_keeps_issue_timestamp :
    (executeQuerySync "SELECT 1" (.intList []) 1000 1500 (.ok [] [])).executionTime
        = 1000 ∧
    (1000 : Int) ≠ 1500 - 1000 ∧
    (executeNativeQueryAsync false none "SELECT 1" (.intList []) 1000 1500
        (.ok [] [])).response.executionTime = 1500 - 1000 ∧
    (executeQuerySyncP0 "SELECT 1" (.intList []) 1000 1500
        (.ok [] [])).executionTime = 1500 - 1000 := by
  exact ⟨rfl, by decide, rfl, rfl⟩

/-- Claim C3, counterexample: in the src/unnamed/part_000 variant the pool is a
single class-level slot.  A first connect under settings name "a" creates the
pool; a later connect under the distinct settings name "b" is handed the
identical pool built for "a", with no second `mysql.createPool` call — so
requests for distinct settings names do not yield distinct pools. -/
theorem C3_counterexample :
    ("a" : String) ≠ "b" ∧
    staticPoolAcquire none "a" 0 = (some ⟨"a", 0⟩, ⟨"a", 0⟩, true) ∧
    staticPoolAcquire (staticPoolAcquire none "a" 0).1 "b" 1
        = (some ⟨"a", 0⟩, ⟨"a", 0⟩, false) := by
  exact ⟨by decide, rfl, rfl⟩

/-- Claim C3 as amended: the spec-modelled per-name registry (`getPool`, used by
src/index.js) invokes the factory and caches on the first request for a settings
name, and every subsequent request for that name returns the identical cached
pool without invoking the factory again; in the part_000 variant the class-level
pool, once created, is returned as-is by every later acquisition under any
settings name, with no further creation. -/
theorem C3_pool_cached (registry : List (String × Pool)) (settingsName : String)
    (factory : Unit → Pool)
    (hnew : registry.find? (fun kv => kv.1 == settingsName) = none) :
    getPool registry settingsName factory
        = ((settingsName, factory ()) :: registry, factory (), true) ∧
    (∀ g : Unit → Pool,
      getPool ((settingsName, factory ()) :: registry) settingsName g
        = ((settingsName, factory ()) :: registry, factory (), false)) ∧
    (∀ (p : Pool) (name : String) (serial : Nat),
      staticPoolAcquire (some p) name serial = (some p, p, false)) := by
  refine ⟨?_, ?_, fun p name serial => rfl⟩
  · simp [getPool, hnew]
  · intro g
    simp [getPool, List.find?]

/-- Witness for `C3_pool_cached` at the empty registry and settings name "a". -/
theorem C3_pool_cached_witness :
    ([] : List (String × Pool)).find? (fun kv => kv.1 == "a") = none ∧
    getPool [] "a" (fun _ => ⟨"a", 7⟩) = ([("a", ⟨"a", 7⟩)], ⟨"a", 7⟩, true) :=
  ⟨rfl, (C3_pool_cached [] "a" (fun _ => ⟨"a", 7⟩) rfl).1⟩

/-- Claim C4, counterexample: the guard in `startTransaction` is JavaScript
truthiness, and the empty string is falsy.  Starting a transaction named `""`
succeeds and leaves the session in `Active("")`; a subsequent
`startTransaction("B")` is then not a no-op: a second driver-level begin is
issued and the stored name is overwritten to "B". -/
theorem C4_counterexample :
    startTransaction none "" none = ⟨some "", true, false, false, none⟩ ∧
    startTransaction (some "") "B" none = ⟨some "B", true, false, false, none⟩ := by
  decide

/-- Claim C4 as amended: for every session whose transaction state is
`Active(n)` with `n` a nonempty name, `startTransaction(m)` is a no-op for any
`m` and any driver outcome — no driver-level begin is issued, nothing is
thrown, and the stored transaction name remains `n`. -/
theorem C4_active_start_noop (n m : String) (beginError : Option String)
    (hn : n ≠ "") :
    startTransaction (some n) m beginError
        = ⟨some n, false, false, false, none⟩ := by
  simp [startTransaction, jsTruthy, hn]

/-- Witness for `C4_active_start_noop` at `Active("A")` and a second start "B". -/
theorem C4_active_start_noop_witness :
    ("A" : String) ≠ "" ∧
    startTransaction (some "A") "B" none
        = ⟨some "A", false, false, false, none⟩ :=
  ⟨by decide, C4_active_start_noop "A" "B" none (by decide)⟩

/-- Claim C5: while the transaction state is `Active(n)`, `commit(m)` and
`rollback(m)` with `m ≠ n` are silently ignored — no driver-level commit or
rollback is issued, nothing is thrown, and the stored name remains `n`. -/
theorem C5_mismatched_name_ignored (n m : String) (commitError : Option String)
    (hnm : m ≠ n) :
    commit (some n) m commitError = ⟨some n, false, false, false, none⟩ ∧
    rollback (some n) m = ⟨some n, false, false, false, none⟩ := by
  have h : ¬(some n = some m) := by
    intro h
    exact hnm (Option.some.inj h).symm
  exact ⟨by simp [commit, h], by simp [rollback, h]⟩

/-- Witness for `C5_mismatched_name_ignored`: `commit("B")` and `rollback("B")`
while `Active("A")`. -/
theorem C5_mismatched_name_ignored_witness :
    ("B" : String) ≠ "A" ∧
    commit (some "A") "B" none = ⟨some "A", false, false, false, none⟩ ∧
    rollback (some "A") "B" = ⟨some "A", false, false, false, none⟩ :=
  ⟨by decide, (C5_mismatched_name_ignored "A" "B" none (by decide)).1,
    (C5_mismatched_name_ignored "A" "B" none (by decide)).2⟩

/-- Claim C6: while `Active(n)`, a failing driver commit raises the
transaction-commit error and leaves the stored name set to `n`, with no
automatic rollback; a successful driver commit clears the name.  So the name is
cleared only when the driver commit succeeds. -/
theorem C6_commit_failure_keeps_name (n e : String) :
    commit (some n) n (some e)
        = ⟨some n, false, true, false,
            some ("Error on committing transaction \"" ++ n ++ "\": " ++ e)⟩ ∧
    commit (some n) n none = ⟨none, false, true, false, none⟩ := by
  exact ⟨by simp [commit], by simp [commit]⟩

/-- Claim C7: `nativeConnect` is idempotent — a first call on an unconnected
session borrows a connection and stores it, and a second call without an
intervening disconnect returns immediately (no pool borrow, no callback) with
the session unchanged, so both calls yield the same borrowed connection. -/
theorem C7_connect_idempotent (s : NCSession) (conn : Conn)
    (poolReply : Except String Conn) (h : s.connection = none) :
    nativeConnect s (.ok conn)
        = ⟨.resolved { s with connection := some conn }, 1, 1⟩ ∧
    nativeConnect { s with connection := some conn } poolReply
        = ⟨.resolved { s with connection := some conn }, 0, 0⟩ := by
  exact ⟨by simp [nativeConnect, h], rfl⟩

/-- Witness for `C7_connect_idempotent` at session "s1" and connection 5. -/
theorem C7_connect_idempotent_witness :
    (⟨"s1", none⟩ : NCSession).connection = none ∧
    nativeConnect ⟨"s1", some ⟨5⟩⟩ (.error "pool down")
        = ⟨.resolved ⟨"s1", some ⟨5⟩⟩, 0, 0⟩ :=
  ⟨rfl, (C7_connect_idempotent ⟨"s1", none⟩ ⟨5⟩ (.error "pool down") rfl).2⟩

/-- Claim C8: when the driver reports an error, `executeNativeQueryAsync`
rejects (does not resolve) with a response whose `error` field carries the
driver's error and whose `results` field is undefined, and `this.transaction`
is unchanged by the failure. -/
theorem C8_driver_error_rejects (isProduction : Bool)
    (transaction : Option String) (command : String) (params : JSVal)
    (issueTime doneTime : Int) (e : String) :
    (executeNativeQueryAsync isProduction transaction command params issueTime
        doneTime (.err e)).resolved = false ∧
    (executeNativeQueryAsync isProduction transaction command params issueTime
        doneTime (.err e)).response.error = some e ∧
    (executeNativeQueryAsync isProduction transaction command params issueTime
        doneTime (.err e)).response.results = none ∧
    (executeNativeQueryAsync isProduction transaction command params issueTime
        doneTime (.err e)).transactionAfter = transaction := by
  cases isProduction <;> simp [executeNativeQueryAsync, applyReply]

/-- Claim C9, counterexample: in the src/index.js variant, with production mode
off and the bound parameters being the plain array `[1, 2]`, the response's
`params` field is `params.parameters`, i.e. `undefined` — not the literal bound
parameters the claim promises. -/
theorem C9_counterexample :
    (executeNativeQueryAsync false none "SELECT ?" (.intList [1, 2]) 0 5
        (.ok [] [])).response.params = some JSVal.undefined ∧
    some JSVal.undefined ≠ some (JSVal.intList [1, 2]) := by
  exact ⟨rfl, by decide⟩

/-- Claim C9 as amended: with production mode on, both variants leave the
`query` and `params` fields absent; with production mode off, both variants set
`query` to the exact issued SQL text, part_000 sets `params` to the literal
bound parameters, and src/index.js sets `params` to the `parameters` property
of the bound-params value (undefined when that value is a plain array). -/
theorem C9_debug_fields_gated (transaction : Option String) (command : String)
    (params : JSVal) (issueTime doneTime : Int) (reply : DriverReply) :
    (executeNativeQueryAsync true transaction command params issueTime doneTime
        reply).response.query = none ∧
    (executeNativeQueryAsync true transaction command params issueTime doneTime
        reply).response.params = none ∧
    (executeNativeQueryAsyncP0 true transaction command params issueTime
        doneTime reply).response.query = none ∧
    (executeNativeQueryAsyncP0 true transaction command params issueTime
        doneTime reply).response.params = none ∧
    (executeNativeQueryAsync false transaction command params issueTime
        doneTime reply).response.query = some command ∧
    (executeNativeQueryAsync false transaction command params issueTime
        doneTime reply).response.params = some params.parametersField ∧
    (executeNativeQueryAsyncP0 false transaction command params issueTime
        doneTime reply).response.query = some command ∧
    (executeNativeQueryAsyncP0 false transaction command params issueTime
        doneTime reply).response.params = some params := by
  cases reply <;>
    simp [executeNativeQueryAsync, executeNativeQueryAsyncP0, applyReply]

/-- Claim C10: `nativeConnect` invokes the caller-supplied callback exactly
once when a fresh connection is successfully borrowed, never when the session
is already connected (it returns immediately), and never when the pool reports
an error (the promise rejects with that error instead). -/
theorem C10_callback_once_on_fresh_borrow (sessionId : String) (conn c : Conn)
    (poolReply : Except String Conn) (e : String) :
    nativeConnect ⟨sessionId, some c⟩ poolReply
        = ⟨.resolved ⟨sessionId, some c⟩, 0, 0⟩ ∧
    nativeConnect ⟨sessionId, none⟩ (.error e)
        = ⟨.rejected ⟨sessionId, none⟩ e, 1, 0⟩ ∧
    nativeConnect ⟨sessionId, none⟩ (.ok conn)
        = ⟨.resolved ⟨sessionId, some conn⟩, 1, 1⟩ := by
  exact ⟨rfl, rfl, rfl⟩

end AresMysql
